import Mathlib

/-!
Verification of the Google Drive integration module (NestJS) against its
natural-language specification.

The embedding is shallow: every pure utility of `src/utils/file.utils.ts` is
translated to an executable Lean function over `String`/`List Char`/`Nat`,
and every service operation of `src/services/google-drive.service.ts` is
translated to a pure function from its inputs and the remote call's outcome
(modelled as a `RemoteResult` value supplied by the environment) to a trace
recording the remote request issued (if any) and the returned value or the
thrown taxonomy error.

JavaScript-specific semantics are modelled explicitly:
- string `trim` removes the ECMAScript whitespace set from both ends
  (`jsWhitespace`, `jsTrim`);
- `split('.')` on a string is `splitOnChar '.'` on its character list,
  which like JS always returns at least one (possibly empty) segment;
- truthiness of a string option (`options.mimeType || …`,
  `this.options.refreshToken`) treats both absence and the empty string
  as falsy;
- a caught exception value is a `JsRejection`, which records whether the
  value is a non-null object, whether it has a `code` property (and the
  code), whether it is an `instanceof Error`, and its message.
-/

/-! ## File utilities (`src/utils/file.utils.ts`) -/

/-- The ECMAScript whitespace set recognised by `String.prototype.trim`:
tab, LF, VT, FF, CR, space, NBSP, Unicode space separators, line/paragraph
separators and the BOM. -/
def jsWhitespaceChars : List Char :=
  ['\t', '\n', '\u000b', '\u000c', '\r', '\u0020', '\u00a0', '\u1680',
   '\u2000', '\u2001', '\u2002', '\u2003', '\u2004', '\u2005', '\u2006',
   '\u2007', '\u2008', '\u2009', '\u200a', '\u2028', '\u2029', '\u202f',
   '\u205f', '\u3000', '\ufeff']

/-- Whether `String.prototype.trim` removes character `c`. -/
def jsWhitespace (c : Char) : Bool :=
  jsWhitespaceChars.contains c

/-- `s.trim()` on the character list of `s`: drop JS whitespace from both
ends. -/
def jsTrim (l : List Char) : List Char :=
  ((l.dropWhile jsWhitespace).reverse.dropWhile jsWhitespace).reverse

/-- The characters rejected by the file-name regex `/[<>:"\/\\|?*]/` in
`validateFileName`. -/
def driveInvalidChars : List Char :=
  ['<', '>', ':', '"', '/', '\\', '|', '?', '*']

/-- `validateFileName` (file.utils.ts:13-17): the name passes iff the regex
of disallowed characters does not match and the trimmed name is non-empty. -/
def validateFileName (fileName : String) : Bool :=
  !(fileName.toList.any (fun c => driveInvalidChars.contains c)) &&
    !(jsTrim fileName.toList).isEmpty

/-- `String.prototype.split` with a single-character separator, on character
lists. Like JS `split`, the result is never empty: splitting the empty
string yields one empty segment. -/
def splitOnChar (sep : Char) : List Char → List (List Char)
  | [] => [[]]
  | c :: rest =>
    let r := splitOnChar sep rest
    if c = sep then [] :: r
    else
      match r with
      | [] => [[c]]
      | h :: t => (c :: h) :: t

/-- The fixed extension→MIME table of `getMimeTypeFromExtension`
(file.utils.ts:25-62). -/
def mimeTypesTable : List (String × String) :=
  [("jpg", "image/jpeg"), ("jpeg", "image/jpeg"), ("png", "image/png"),
   ("gif", "image/gif"), ("webp", "image/webp"),
   ("pdf", "application/pdf"), ("doc", "application/msword"),
   ("docx", "application/vnd.openxmlformats-officedocument.wordprocessingml.document"),
   ("xls", "application/vnd.ms-excel"),
   ("xlsx", "application/vnd.openxmlformats-officedocument.spreadsheetml.sheet"),
   ("ppt", "application/vnd.ms-powerpoint"),
   ("pptx", "application/vnd.openxmlformats-officedocument.presentationml.presentation"),
   ("txt", "text/plain"), ("csv", "text/csv"), ("json", "application/json"),
   ("xml", "application/xml"),
   ("zip", "application/zip"), ("rar", "application/x-rar-compressed"),
   ("7z", "application/x-7z-compressed"),
   ("mp4", "video/mp4"), ("avi", "video/x-msvideo"), ("mov", "video/quicktime"),
   ("mp3", "audio/mpeg"), ("wav", "audio/wav"), ("flac", "audio/flac")]

/-- `fileName.split('.').pop()?.toLowerCase()`: the last `'.'`-separated
segment of the name, lower-cased. For a dot-free name this is the whole
name; for a name ending in a dot it is empty. (JS `toLowerCase` and Lean
`Char.toLower` agree on ASCII; no table key contains a character that any
non-ASCII character lower-cases to.) -/
def extensionOf (fileName : String) : String :=
  String.mk (((splitOnChar '.' fileName.toList).getLastD []).map Char.toLower)

/-- `getMimeTypeFromExtension` (file.utils.ts:22-67): look the (lower-cased)
last dot-segment up in the fixed table, defaulting to the generic binary
type when the segment is empty (falsy) or unknown. -/
def getMimeTypeFromExtension (fileName : String) : String :=
  let extension := extensionOf fileName
  if extension == "" then "application/octet-stream"
  else
    match mimeTypesTable.lookup extension with
    | some v => v
    | none => "application/octet-stream"

/-! ### Helper lemmas about trimming and splitting -/

theorem jsTrim_eq_nil_iff (l : List Char) :
    jsTrim l = [] ↔ ∀ c ∈ l, jsWhitespace c = true := by
  unfold jsTrim
  rw [List.reverse_eq_nil_iff, List.dropWhile_eq_nil_iff]
  constructor
  · intro h c hc
    rcases List.mem_append.mp
        ((List.takeWhile_append_dropWhile (p := jsWhitespace) (l := l)) ▸ hc) with h1 | h1
    · exact List.mem_takeWhile_imp h1
    · exact h c (List.mem_reverse.mpr h1)
  · intro h c hc
    exact h c ((List.dropWhile_sublist _).subset (List.mem_reverse.mp hc))

theorem jsTrim_isEmpty_eq_false_iff (l : List Char) :
    (jsTrim l).isEmpty = false ↔ ∃ c ∈ l, jsWhitespace c = false := by
  rw [List.isEmpty_eq_false, Ne, jsTrim_eq_nil_iff]
  push_neg
  simp

/-- Claim C5: a file name passes `validateFileName` exactly when it contains
none of the characters `< > : " / \ | ? *` and at least one character that
is not JS whitespace (i.e. it is non-empty after trimming); names containing
a forbidden character, empty names, and all-whitespace names fail. -/
theorem validateFileName_spec (s : String) :
    validateFileName s = true ↔
      (∀ c ∈ s.toList, c ∉ driveInvalidChars) ∧
        ∃ c ∈ s.toList, jsWhitespace c = false := by
  unfold validateFileName
  rw [Bool.and_eq_true, Bool.not_eq_true', Bool.not_eq_true',
    List.any_eq_false, jsTrim_isEmpty_eq_false_iff]
  constructor
  · intro ⟨h1, h2⟩
    refine ⟨fun c hc hmem => ?_, h2⟩
    exact h1 c hc (List.elem_iff.mpr hmem)
  · intro ⟨h1, h2⟩
    refine ⟨fun c hc hcont => ?_, h2⟩
    exact h1 c hc (List.elem_iff.mp hcont)

/-- Witness for C5: `validateFileName` accepts `"report.pdf"` (via the
characterisation) and, directly from the characterisation, rejects
`"a/b.txt"`. -/
theorem validateFileName_spec_witness :
    validateFileName "report.pdf" = true ∧ validateFileName "a/b.txt" ≠ true :=
  ⟨(validateFileName_spec "report.pdf").mpr (by decide),
   fun h => by
    have := ((validateFileName_spec "a/b.txt").mp h).1 '/' (by decide)
    exact this (by decide)⟩

/-- Claim C6 (amended): `getMimeTypeFromExtension` treats the lower-cased
last `'.'`-separated segment of the name (the whole name when it has no dot)
as the extension. When that segment is a key of the fixed table the mapped
value is returned; otherwise — including the empty segment of a name ending
in a dot — the generic binary type is returned. The result depends only on
the lower-cased segment, so the lookup is case-insensitive. -/
theorem getMimeTypeFromExtension_lastSegment_spec (s : String) :
    (∀ v, mimeTypesTable.lookup (extensionOf s) = some v →
      getMimeTypeFromExtension s = v) ∧
    (mimeTypesTable.lookup (extensionOf s) = none →
      getMimeTypeFromExtension s = "application/octet-stream") ∧
    (∀ t : String, extensionOf s = extensionOf t →
      getMimeTypeFromExtension s = getMimeTypeFromExtension t) := by
  refine ⟨fun v hv => ?_, fun hn => ?_, fun t ht => ?_⟩
  · have hne : (extensionOf s == "") = false := by
      rcases h : extensionOf s == "" with _ | _
      · rfl
      · exfalso
        rw [eq_of_beq h] at hv
        have hnone : mimeTypesTable.lookup "" = none := by decide
        rw [hnone] at hv
        exact Option.noConfusion hv
    simp only [getMimeTypeFromExtension, hne, Bool.false_eq_true, if_false, hv]
  · rcases h : extensionOf s == "" with _ | _
    · simp only [getMimeTypeFromExtension, h, Bool.false_eq_true, if_false, hn]
    · simp only [getMimeTypeFromExtension, h, if_true]
  · simp only [getMimeTypeFromExtension, ht]

/-- Witness for C6's amended theorem: a known extension with upper-case
letters maps case-insensitively, and `"IMAGE.JPG"` agrees with
`"image.jpg"`. -/
theorem getMimeTypeFromExtension_lastSegment_spec_witness :
    mimeTypesTable.lookup (extensionOf "IMAGE.JPG") = some "image/jpeg" ∧
      getMimeTypeFromExtension "IMAGE.JPG" = "image/jpeg" ∧
      extensionOf "IMAGE.JPG" = extensionOf "image.jpg" ∧
      getMimeTypeFromExtension "IMAGE.JPG" = getMimeTypeFromExtension "image.jpg" :=
  ⟨by decide,
   (getMimeTypeFromExtension_lastSegment_spec "IMAGE.JPG").1 "image/jpeg" (by decide),
   by decide,
   (getMimeTypeFromExtension_lastSegment_spec "IMAGE.JPG").2.2 "image.jpg" (by decide)⟩

/-- Counterexample to C6 as stated: the name `"jpg"` contains no dot, so it
has no extension, yet the function returns `"image/jpeg"` rather than the
claimed `"application/octet-stream"` — a dot-free name equal to a table key
is looked up as if it were an extension. -/
theorem getMimeTypeFromExtension_dotless_counterexample :
    getMimeTypeFromExtension "jpg" = "image/jpeg" ∧
      getMimeTypeFromExtension "jpg" ≠ "application/octet-stream" := by
  constructor
  · decide
  · decide

/-! ## Size formatting (`formatFileSize`, file.utils.ts:72-82)

The source computes `i = Math.floor(Math.log(size) / Math.log(1024))` and
renders `parseFloat((size / Math.pow(1024, i)).toFixed(2)) + ' ' + sizes[i]`
with IEEE doubles. The embedding uses exact arithmetic in its place: `i` is
the exact base-1024 logarithm of a positive size, and the rendered quantity
is `m / 100` where `m = round(100 * size / 1024 ^ i)` (ties rounded up, as
`toFixed` rounds away from zero for positive values), written without
trailing fractional zeros exactly as `parseFloat(x.toFixed(2)).toString()`
prints it. On the inputs the specification speaks about the two agree. -/

/-- The unit labels of `formatFileSize`; like the JS array, indexing past
the end (size ≥ 1024⁵) falls back to `undefined`. -/
def sizesList : List String :=
  ["Bytes", "KB", "MB", "GB", "TB"]

/-- `parseFloat(x.toFixed(2)).toString()` for the nonnegative rational
`m / 100`: the integer part, then at most two fractional digits with
trailing zeros (and a trailing lone dot) stripped. -/
def renderFixed2 (m : Nat) : String :=
  let ip := m / 100
  let frac := m % 100
  if frac = 0 then Nat.repr ip
  else if frac % 10 = 0 then
    Nat.repr ip ++ "." ++ String.mk [Nat.digitChar (frac / 10)]
  else
    Nat.repr ip ++ "." ++ String.mk [Nat.digitChar (frac / 10), Nat.digitChar (frac % 10)]

/-- `formatFileSize` on an already-numeric size (a nonnegative integer, the
only numbers the specification speaks about). -/
def formatFileSizeNat (size : Nat) : String :=
  if size = 0 then "0 Bytes"
  else
    let i := Nat.log 1024 size
    let p := 1024 ^ i
    let m := (200 * size + p) / (2 * p)
    renderFixed2 m ++ " " ++ List.getD sizesList i ("undefined")

/-- `parseInt(s, 10)` for the inputs relevant here: skip leading JS
whitespace and an optional `'+'`, then read the maximal leading run of
decimal digits; no digits means `NaN` (`none`). (A leading `'-'` would
produce a negative number, which the `Nat`-valued model does not cover;
the specification only speaks about numeric strings.) -/
def parseIntDec (s : String) : Option Nat :=
  let l := s.toList.dropWhile jsWhitespace
  let l1 := match l with
    | '+' :: rest => rest
    | _ => l
  let ds := l1.takeWhile Char.isDigit
  if ds.isEmpty then none
  else some (ds.foldl (fun acc c => 10 * acc + (c.toNat - 48)) 0)

/-- The union input type of `formatFileSize(bytes: string | number)`. -/
inductive JsStringOrNumber where
  | str (s : String)
  | num (n : Nat)
deriving DecidableEq, Repr

/-- `formatFileSize` (file.utils.ts:72-82): a string input goes through
`parseInt` first. A non-numeric string makes every subsequent float
operation produce `NaN` and the unit index `NaN` selects no array element,
so the JS result is the string `"NaN undefined"`. -/
def formatFileSize : JsStringOrNumber → String
  | .num n => formatFileSizeNat n
  | .str s =>
    match parseIntDec s with
    | some n => formatFileSizeNat n
    | none => "NaN undefined"

/-- The number token of a formatted size: everything before the first
space. -/
def numberToken (s : String) : String :=
  String.mk (s.toList.takeWhile (fun c => c != ' '))

/-- How many digits appear after the decimal point of a number token
(zero when there is no point). -/
def decimalPlaces (s : String) : Nat :=
  if s.toList.contains '.' then
    (s.toList.reverse.takeWhile (fun c => c != '.')).length
  else 0

/-! ### Character-level facts about the rendered number -/

theorem digitChar_lt10_good (m : Nat) (h : m < 10) :
    Nat.digitChar m ≠ '.' ∧ Nat.digitChar m ≠ ' ' := by
  interval_cases m <;> decide

theorem toDigitsCore_chars (fuel n : Nat) (acc : List Char)
    (hacc : ∀ c ∈ acc, c ≠ '.' ∧ c ≠ ' ') :
    ∀ c ∈ Nat.toDigitsCore 10 fuel n acc, c ≠ '.' ∧ c ≠ ' ' := by
  induction fuel generalizing n acc with
  | zero => simpa [Nat.toDigitsCore] using hacc
  | succ fuel ih =>
    intro c hc
    rw [Nat.toDigitsCore] at hc
    have hd := digitChar_lt10_good (n % 10) (Nat.mod_lt n (by norm_num))
    by_cases h10 : n / 10 = 0
    · rw [if_pos h10] at hc
      rcases List.mem_cons.mp hc with h | h
      · exact h ▸ hd
      · exact hacc c h
    · rw [if_neg h10] at hc
      refine ih (n / 10) (Nat.digitChar (n % 10) :: acc) ?_ c hc
      intro d hdm
      rcases List.mem_cons.mp hdm with h | h
      · exact h ▸ hd
      · exact hacc d h

theorem reprChars (n : Nat) : ∀ c ∈ (Nat.repr n).data, c ≠ '.' ∧ c ≠ ' ' := by
  intro c hc
  have h : (Nat.repr n).data = Nat.toDigitsCore 10 (n + 1) n [] := rfl
  rw [h] at hc
  exact toDigitsCore_chars (n + 1) n [] (by simp) c hc

theorem takeWhileAppendAll {p : Char → Bool} {l1 l2 : List Char}
    (h : ∀ c ∈ l1, p c = true) :
    (l1 ++ l2).takeWhile p = l1 ++ l2.takeWhile p := by
  induction l1 with
  | nil => rfl
  | cons c rest ih =>
    have hc : p c = true := h c (by simp)
    simp only [List.cons_append, List.takeWhile_cons, hc, if_true]
    rw [ih (fun d hd => h d (by simp [hd]))]

theorem stringDataAppend (a b : String) : (a ++ b).data = a.data ++ b.data := rfl

theorem stringMkData (s : String) : String.mk s.data = s := by
  cases s
  rfl

theorem renderFixed2_shape (m : Nat) :
    (renderFixed2 m).data = (Nat.repr (m / 100)).data ∨
      ∃ ds : List Char, (renderFixed2 m).data = (Nat.repr (m / 100)).data ++ '.' :: ds ∧
        ds.length ≤ 2 ∧ ∀ c ∈ ds, c ≠ '.' ∧ c ≠ ' ' := by
  have h1 := digitChar_lt10_good (m % 100 / 10) (by omega)
  have h2 := digitChar_lt10_good (m % 100 % 10) (by omega)
  unfold renderFixed2
  by_cases hf : m % 100 = 0
  · rw [if_pos hf]
    exact Or.inl rfl
  · rw [if_neg hf]
    by_cases hf10 : m % 100 % 10 = 0
    · rw [if_pos hf10]
      refine Or.inr ⟨[Nat.digitChar (m % 100 / 10)], ?_, by simp, ?_⟩
      · simp [stringDataAppend]
      · intro c hc
        rcases List.mem_singleton.mp hc with h
        exact h ▸ h1
    · rw [if_neg hf10]
      refine Or.inr ⟨[Nat.digitChar (m % 100 / 10), Nat.digitChar (m % 100 % 10)], ?_, by simp, ?_⟩
      · simp [stringDataAppend]
      · intro c hc
        rcases List.mem_cons.mp hc with h | h
        · exact h ▸ h1
        · rcases List.mem_singleton.mp h with h
          exact h ▸ h2

theorem renderFixed2_chars (m : Nat) :
    ∀ c ∈ (renderFixed2 m).data, c ≠ ' ' := by
  intro c hc
  rcases renderFixed2_shape m with h | ⟨ds, h, _, hds⟩
  · exact (reprChars (m / 100) c (h ▸ hc)).2
  · rw [h] at hc
    rcases List.mem_append.mp hc with h1 | h1
    · exact (reprChars (m / 100) c h1).2
    · rcases List.mem_cons.mp h1 with h2 | h2
      · exact h2 ▸ (by decide)
      · exact (hds c h2).2

theorem numberToken_sized (r u : String) (h : ∀ c ∈ r.data, c ≠ ' ') :
    numberToken (r ++ " " ++ u) = r := by
  unfold numberToken
  have hdata : (r ++ " " ++ u).toList = r.data ++ ' ' :: u.data := by
    rw [String.toList, stringDataAppend, stringDataAppend, List.append_assoc]
    rfl
  rw [hdata, takeWhileAppendAll (fun c hc => by simp [h c hc])]
  simp only [List.takeWhile_cons]
  norm_num

theorem decimalPlaces_renderFixed2 (m : Nat) :
    decimalPlaces (renderFixed2 m) ≤ 2 := by
  rcases renderFixed2_shape m with h | ⟨ds, h, hlen, hds⟩
  · unfold decimalPlaces
    rw [if_neg]
    · omega
    · intro hcont
      have := List.elem_iff.mp hcont
      rw [String.toList, h] at this
      exact (reprChars (m / 100) '.' this).1 rfl
  · unfold decimalPlaces
    rw [String.toList, h, if_pos]
    · rw [List.reverse_append, List.reverse_cons, List.append_assoc,
        takeWhileAppendAll (fun c hc => by simp [(hds c (List.mem_reverse.mp hc)).1])]
      simp only [List.singleton_append, List.takeWhile_cons]
      norm_num
      exact hlen
    · exact List.elem_iff.mpr (by simp)

/-! ### The quantity rendered for the sizes the specification names -/

theorem renderFixed2_mul100 (k : Nat) : renderFixed2 (100 * k) = Nat.repr k := by
  simp only [renderFixed2, Nat.mul_mod_right, Nat.mul_div_cancel_left k (by norm_num : 0 < 100),
    ite_true, if_pos rfl]

theorem formatFileSizeNat_pow (j : Nat) :
    formatFileSizeNat (1024 ^ j) = "1 " ++ List.getD sizesList j ("undefined") := by
  have hpos : 0 < 1024 ^ j := Nat.pos_pow_of_pos j (by norm_num)
  have hlog : Nat.log 1024 (1024 ^ j) = j := Nat.log_pow (by norm_num) j
  have hm : (200 * 1024 ^ j + 1024 ^ j) / (2 * 1024 ^ j) = 100 := by
    have h201 : 200 * 1024 ^ j + 1024 ^ j = 201 * 1024 ^ j := by ring
    rw [h201, Nat.mul_div_mul_right 201 2 hpos]
  simp only [formatFileSizeNat, if_neg hpos.ne', hlog, hm]
  have h1 : renderFixed2 100 = Nat.repr 1 := by
    have := renderFixed2_mul100 1
    simpa using this
  rw [h1]
  rfl

theorem formatFileSizeNat_small (n : Nat) (h : n < 1024) :
    formatFileSizeNat n = Nat.repr n ++ " Bytes" := by
  rcases Nat.eq_zero_or_pos n with h0 | h0
  · subst h0
    rfl
  · have hlog : Nat.log 1024 n = 0 := Nat.log_eq_zero_iff.mpr (Or.inl h)
    have hm : (200 * n + 1024 ^ (0 : Nat)) / (2 * 1024 ^ (0 : Nat)) = 100 * n := by
      norm_num
      omega
    simp only [formatFileSizeNat, if_neg h0.ne', hlog, hm, renderFixed2_mul100]
    rw [String.append_assoc]
    rfl

theorem decimalPlaces_formatFileSizeNat (n : Nat) :
    decimalPlaces (numberToken (formatFileSizeNat n)) ≤ 2 := by
  by_cases h0 : n = 0
  · subst h0
    decide
  · simp only [formatFileSizeNat, if_neg h0]
    rw [numberToken_sized _ _ (renderFixed2_chars _)]
    exact decimalPlaces_renderFixed2 _

/-- Claim C7: `formatFileSize` maps 0 to `"0 Bytes"`, every size under 1024
to `"<n> Bytes"`, the exact powers 1024¹…1024⁴ to `"1 KB"`, `"1 MB"`,
`"1 GB"`, `"1 TB"`, rounds the number to at most two decimal places
(1536 → `"1.5 KB"`), and treats a numeric string exactly like the number it
parses to. -/
theorem formatFileSize_spec :
    formatFileSize (.num 0) = "0 Bytes" ∧
    (∀ n : Nat, n < 1024 → formatFileSize (.num n) = Nat.repr n ++ " Bytes") ∧
    formatFileSize (.num 1024) = "1 KB" ∧
    formatFileSize (.num 1048576) = "1 MB" ∧
    formatFileSize (.num 1073741824) = "1 GB" ∧
    formatFileSize (.num 1099511627776) = "1 TB" ∧
    formatFileSize (.num 1536) = "1.5 KB" ∧
    (∀ v : JsStringOrNumber, decimalPlaces (numberToken (formatFileSize v)) ≤ 2) ∧
    (∀ s n, parseIntDec s = some n → formatFileSize (.str s) = formatFileSize (.num n)) := by
  refine ⟨rfl, ?_, ?_, ?_, ?_, ?_, ?_, ?_, ?_⟩
  · intro n h
    exact formatFileSizeNat_small n h
  · exact (formatFileSizeNat_pow 1).trans rfl
  · exact (formatFileSizeNat_pow 2).trans rfl
  · exact (formatFileSizeNat_pow 3).trans rfl
  · exact (formatFileSizeNat_pow 4).trans rfl
  · show formatFileSizeNat 1536 = "1.5 KB"
    have hlog : Nat.log 1024 1536 = 1 :=
      Nat.log_eq_of_pow_le_of_lt_pow (by norm_num) (by norm_num)
    simp only [formatFileSizeNat, hlog]
    rfl
  · intro v
    match v with
    | .num n => exact decimalPlaces_formatFileSizeNat n
    | .str s =>
      rcases hp : parseIntDec s with _ | n
      · simp only [formatFileSize, hp]
        decide
      · simp only [formatFileSize, hp]
        exact decimalPlaces_formatFileSizeNat n
  · intro s n hp
    simp only [formatFileSize, hp]

/-- Witness for C7: the size 500 is under 1024 and formats to
`"500 Bytes"`, and the numeric string `"1536"` formats like the number
1536. -/
theorem formatFileSize_spec_witness :
    (500 : Nat) < 1024 ∧ formatFileSize (.num 500) = "500 Bytes" ∧
      parseIntDec "1536" = some 1536 ∧
      formatFileSize (.str "1536") = formatFileSize (.num 1536) :=
  ⟨by norm_num,
   (formatFileSize_spec.2.1 500 (by norm_num)).trans rfl,
   by decide,
   formatFileSize_spec.2.2.2.2.2.2.2.2 "1536" 1536 (by decide)⟩

/-! ## Error taxonomy (`src/errors/google-drive.error.ts`) -/

/-- A value caught by a `catch` block: the remote call's rejection reason.
It records the observations the service makes on it: truthiness together
with `typeof error === 'object'` (`isObject`), presence of a `code`
property and its value (`hasCode`, `code`), whether the value is an
`instanceof Error` (`isErrorInstance`), and its `message`. The repository's
own tests reject both with `Error` instances and with plain
`{ code, message }` objects. -/
structure JsRejection where
  isObject : Bool
  hasCode : Bool
  code : Int
  isErrorInstance : Bool
  message : String
deriving DecidableEq, Repr

/-- `error instanceof Error ? error : undefined` — the cause attached to a
wrapping taxonomy error. -/
def rejectionCause (e : JsRejection) : Option JsRejection :=
  if e.isErrorInstance then some e else none

/-- `error instanceof Error ? error.message : <fallback>`. -/
def rejectionMessage (fallback : String) (e : JsRejection) : String :=
  if e.isErrorInstance then e.message else fallback

/-- The fields shared by the whole `GoogleDriveError` hierarchy, plus the
contextual fields of the subclasses (`fileName` for upload errors, `fileId`
for download errors); a subclass is identified by its `name` tag. -/
structure GoogleDriveError where
  name : String
  message : String
  code : Option String
  statusCode : Option Nat
  fileName : Option String
  fileId : Option String
  cause : Option JsRejection
deriving DecidableEq, Repr

/-- `new FileUploadError(message, fileName, cause)`. -/
def mkFileUploadError (message : String) (fileName : Option String)
    (cause : Option JsRejection) : GoogleDriveError :=
  { name := "FileUploadError"
    message := "File upload failed: " ++ message
    code := some "FILE_UPLOAD_ERROR"
    statusCode := none
    fileName := fileName
    fileId := none
    cause := cause }

/-- `new FileDownloadError(message, fileId, cause)`. -/
def mkFileDownloadError (message : String) (fileId : Option String)
    (cause : Option JsRejection) : GoogleDriveError :=
  { name := "FileDownloadError"
    message := "File download failed: " ++ message
    code := some "FILE_DOWNLOAD_ERROR"
    statusCode := none
    fileName := none
    fileId := fileId
    cause := cause }

/-- `new AuthenticationError(message, cause)`. -/
def mkAuthenticationError (message : String) (cause : Option JsRejection) :
    GoogleDriveError :=
  { name := "AuthenticationError"
    message := "Authentication failed: " ++ message
    code := some "AUTHENTICATION_ERROR"
    statusCode := some 401
    fileName := none
    fileId := none
    cause := cause }

/-! ## Data model (`src/interfaces/google-drive.interface.ts`,
`src/constants/index.ts`) -/

/-- `GoogleDriveModuleOptions`. -/
structure GoogleDriveModuleOptions where
  clientId : String
  clientSecret : String
  redirectUri : String
  refreshToken : Option String
  accessToken : Option String
deriving DecidableEq, Repr

/-- The credential object handed to `auth.setCredentials`. -/
structure OAuthCreds where
  refresh_token : Option String
  access_token : Option String
deriving DecidableEq, Repr

/-- The `google.auth.OAuth2` client: constructor arguments plus the
credentials set on it (none when `setCredentials` was never called). -/
structure OAuth2Client where
  clientId : String
  clientSecret : String
  redirectUri : String
  credentials : Option OAuthCreds
deriving DecidableEq, Repr

/-- A `drive_v3.Drive` handle: the API version it was built with and the
auth client backing it. -/
structure DriveHandle where
  version : String
  auth : OAuth2Client
deriving DecidableEq, Repr

def DRIVE_API_VERSION : String := "v3"

def DEFAULT_FILE_FIELDS : String :=
  "id,name,mimeType,size,parents,createdTime,modifiedTime"

/-- JS truthiness of an optional string: `undefined` and `""` are falsy. -/
def optStrTruthy : Option String → Bool
  | some s => s != ""
  | none => false

/-- `initializeDrive` (google-drive.service.ts:48-77): build the OAuth2
client from the module options, set credentials only when a refresh token
is (truthily) present, and build the module-wide Drive handle. -/
def initializeDrive (options : GoogleDriveModuleOptions) : DriveHandle :=
  { version := DRIVE_API_VERSION
    auth :=
      { clientId := options.clientId
        clientSecret := options.clientSecret
        redirectUri := options.redirectUri
        credentials :=
          if optStrTruthy options.refreshToken then
            some { refresh_token := options.refreshToken, access_token := options.accessToken }
          else none } }

/-- The service's whole mutable state: the injected module options and the
long-lived handle built at construction. No operation ever assigns to
either field after construction. -/
structure ServiceState where
  options : GoogleDriveModuleOptions
  drive : DriveHandle
deriving DecidableEq, Repr

/-- `UserGoogleDriveCredentials` (expiry modelled as an opaque number). -/
structure UserGoogleDriveCredentials where
  accessToken : String
  refreshToken : Option String
  expiresAt : Option Nat
deriving DecidableEq, Repr

/-- `UserDriveOptions`. -/
structure UserDriveOptions where
  credentials : UserGoogleDriveCredentials
deriving DecidableEq, Repr

/-- `createUserDriveInstance` (google-drive.service.ts:261-277): a fresh
OAuth2 client from the module options' client id/secret/redirect URI, with
the caller's tokens set, wrapped in a fresh Drive handle. The service state
is only read. -/
def createUserDriveInstance (st : ServiceState)
    (credentials : UserGoogleDriveCredentials) : DriveHandle :=
  { version := DRIVE_API_VERSION
    auth :=
      { clientId := st.options.clientId
        clientSecret := st.options.clientSecret
        redirectUri := st.options.redirectUri
        credentials :=
          some { refresh_token := credentials.refreshToken
                 access_token := some credentials.accessToken } } }

/-! ## Requests, responses and operation traces -/

/-- The outcome the environment gives to the single remote call an
operation makes: the promise resolves with a value or rejects with a
reason. -/
inductive RemoteResult (α : Type) where
  | resolve (value : α)
  | reject (reason : JsRejection)
deriving DecidableEq, Repr

/-- `UploadFileOptions`. -/
structure UploadFileOptions where
  name : String
  parents : Option (List String)
  mimeType : Option String
deriving DecidableEq, Repr

/-- `Readable | Buffer` input content. -/
inductive FileContent where
  | buffer (data : List Nat)
  | readable (streamId : Nat)
deriving DecidableEq, Repr

/-- The media body sent to the create call: either the stream produced by
`bufferToStream` or the caller's stream passed through. -/
inductive StreamBody where
  | fromBuffer (data : List Nat)
  | direct (streamId : Nat)
deriving DecidableEq, Repr

/-- `bufferToStream` (file.utils.ts:6-8). -/
def bufferToStream (data : List Nat) : StreamBody :=
  .fromBuffer data

/-- `FileMetadata` as returned by the remote API. -/
structure FileMetadata where
  id : String
  name : String
  mimeType : String
  size : String
  parents : Option (List String)
  createdTime : String
  modifiedTime : String
deriving DecidableEq, Repr

/-- `UploadResult`: the response metadata spread into a new object plus the
constructed viewer URL. -/
structure UploadResult where
  id : String
  name : String
  mimeType : String
  size : String
  parents : Option (List String)
  createdTime : String
  modifiedTime : String
  downloadUrl : String
deriving DecidableEq, Repr

/-- `{ ...response.data, downloadUrl: "https://drive.google.com/file/d/<id>/view" }`. -/
def mkUploadResult (d : FileMetadata) : UploadResult :=
  { id := d.id
    name := d.name
    mimeType := d.mimeType
    size := d.size
    parents := d.parents
    createdTime := d.createdTime
    modifiedTime := d.modifiedTime
    downloadUrl := "https://drive.google.com/file/d/" ++ d.id ++ "/view" }

/-- The argument object of `drive.files.create`. -/
structure CreateRequest where
  name : String
  parents : Option (List String)
  mimeType : String
  body : StreamBody
  fields : String
deriving DecidableEq, Repr

/-- The argument of `drive.files.get`: file id, whether `alt: 'media'` was
passed, the `fields` selection if any, and whether the response type is a
stream. -/
structure GetRequest where
  fileId : String
  altMedia : Bool
  fields : Option String
  responseTypeStream : Bool
deriving DecidableEq, Repr

/-- The argument of `drive.about.get`. -/
structure AboutRequest where
  fields : String
deriving DecidableEq, Repr

deriving instance DecidableEq for Except

/-- What one call to a module-credential operation did: the remote request
it issued (`none` when validation failed before the call) and the value it
returned or the taxonomy error it threw. -/
structure OpTrace (ρ α : Type) where
  request : Option ρ
  result : Except GoogleDriveError α
deriving DecidableEq, Repr

/-- What one call to a per-user operation did: additionally records which
Drive handle served the remote call and the service state after the call. -/
structure UserOpTrace (ρ α : Type) where
  handleUsed : Option DriveHandle
  request : Option ρ
  result : Except GoogleDriveError α
  finalState : ServiceState
deriving DecidableEq, Repr

/-! ## Service operations (`src/services/google-drive.service.ts`) -/

/-- `uploadFile` (google-drive.service.ts:85-142): validate the name
(throwing a `FileUploadError` before the remote call on failure), convert a
buffer to a stream, resolve the MIME type (`options.mimeType ||
getMimeTypeFromExtension(options.name)` — absent and empty-string MIME
types both fall back to inference), issue the create call with the fixed
field set, and either augment the response with the viewer URL or wrap the
rejection in a `FileUploadError` carrying the file name. -/
def uploadFile (fileStream : FileContent) (options : UploadFileOptions)
    (remote : RemoteResult FileMetadata) : OpTrace CreateRequest UploadResult :=
  if !(validateFileName options.name) then
    { request := none
      result := .error (mkFileUploadError ("Invalid file name") (some options.name) none) }
  else
    let stream := match fileStream with
      | .buffer data => bufferToStream data
      | .readable i => .direct i
    let mimeType := match options.mimeType with
      | some s => if s == "" then getMimeTypeFromExtension options.name else s
      | none => getMimeTypeFromExtension options.name
    let req : CreateRequest :=
      { name := options.name
        parents := options.parents
        mimeType := mimeType
        body := stream
        fields := DEFAULT_FILE_FIELDS }
    match remote with
    | .resolve d => { request := some req, result := .ok (mkUploadResult d) }
    | .reject e =>
      { request := some req
        result := .error (mkFileUploadError (rejectionMessage ("Unknown upload error") e)
          (some options.name) (rejectionCause e)) }

/-- `downloadFile` (google-drive.service.ts:149-201): reject ids that are
falsy or trim to nothing with a `FileDownloadError` before the remote call;
otherwise issue the streaming get. A rejection carrying a `code` of 404
becomes a `FileDownloadError "File not found"`, 403 an
`AuthenticationError "Access denied"`, anything else a generic
`FileDownloadError`; the original reason is attached as cause only when it
is an `instanceof Error`. -/
def downloadFile {σ : Type} (fileId : String) (remote : RemoteResult σ) :
    OpTrace GetRequest σ :=
  if fileId == "" || (jsTrim fileId.toList).isEmpty then
    { request := none
      result := .error (mkFileDownloadError ("File ID is required") (some fileId) none) }
  else
    let req : GetRequest :=
      { fileId := fileId, altMedia := true, fields := none, responseTypeStream := true }
    match remote with
    | .resolve stream => { request := some req, result := .ok stream }
    | .reject e =>
      let message := rejectionMessage ("Unknown download error") e
      { request := some req
        result :=
          if e.isObject && e.hasCode then
            if e.code = 404 then
              .error (mkFileDownloadError ("File not found") (some fileId) (rejectionCause e))
            else if e.code = 403 then
              .error (mkAuthenticationError ("Access denied") (rejectionCause e))
            else
              .error (mkFileDownloadError message (some fileId) (rejectionCause e))
          else
            .error (mkFileDownloadError message (some fileId) (rejectionCause e)) }

/-- `getFileMetadata` (google-drive.service.ts:208-234): same id validation
as `downloadFile`, then a non-streaming get with the fixed field set; any
rejection is wrapped in a `FileDownloadError` with the file id, with no
special-casing of 404 or 403. -/
def getFileMetadata (fileId : String) (remote : RemoteResult FileMetadata) :
    OpTrace GetRequest FileMetadata :=
  if fileId == "" || (jsTrim fileId.toList).isEmpty then
    { request := none
      result := .error (mkFileDownloadError ("File ID is required") (some fileId) none) }
  else
    let req : GetRequest :=
      { fileId := fileId, altMedia := false, fields := some DEFAULT_FILE_FIELDS,
        responseTypeStream := false }
    match remote with
    | .resolve d => { request := some req, result := .ok d }
    | .reject e =>
      { request := some req
        result := .error (mkFileDownloadError (rejectionMessage ("Unknown error") e)
          (some fileId) (rejectionCause e)) }

/-- `testConnection` (google-drive.service.ts:240-251): a `who am I` call;
both branches of the try/catch return normally, so the result is always
`.ok` of a boolean. -/
def testConnection (remote : RemoteResult Unit) : OpTrace AboutRequest Bool :=
  { request := some { fields := "user" }
    result := match remote with
      | .resolve _ => .ok true
      | .reject _ => .ok false }

/-- `uploadFileToUserDrive` (google-drive.service.ts:286-346): structurally
`uploadFile`, but after validation a fresh handle is built from the
caller's credentials and serves the create call; the service state is
returned unchanged. -/
def uploadFileToUserDrive (st : ServiceState) (fileStream : FileContent)
    (options : UploadFileOptions) (userOptions : UserDriveOptions)
    (remote : RemoteResult FileMetadata) : UserOpTrace CreateRequest UploadResult :=
  if !(validateFileName options.name) then
    { handleUsed := none
      request := none
      result := .error (mkFileUploadError ("Invalid file name") (some options.name) none)
      finalState := st }
  else
    let userDrive := createUserDriveInstance st userOptions.credentials
    let stream := match fileStream with
      | .buffer data => bufferToStream data
      | .readable i => .direct i
    let mimeType := match options.mimeType with
      | some s => if s == "" then getMimeTypeFromExtension options.name else s
      | none => getMimeTypeFromExtension options.name
    let req : CreateRequest :=
      { name := options.name
        parents := options.parents
        mimeType := mimeType
        body := stream
        fields := DEFAULT_FILE_FIELDS }
    match remote with
    | .resolve d =>
      { handleUsed := some userDrive, request := some req,
        result := .ok (mkUploadResult d), finalState := st }
    | .reject e =>
      { handleUsed := some userDrive
        request := some req
        result := .error (mkFileUploadError (rejectionMessage ("Unknown upload error") e)
          (some options.name) (rejectionCause e))
        finalState := st }

/-- `downloadFileFromUserDrive` (google-drive.service.ts:354-408):
`downloadFile` against a fresh per-user handle, with the user-drive error
messages. -/
def downloadFileFromUserDrive {σ : Type} (st : ServiceState) (fileId : String)
    (userOptions : UserDriveOptions) (remote : RemoteResult σ) :
    UserOpTrace GetRequest σ :=
  if fileId == "" || (jsTrim fileId.toList).isEmpty then
    { handleUsed := none
      request := none
      result := .error (mkFileDownloadError ("File ID is required") (some fileId) none)
      finalState := st }
  else
    let userDrive := createUserDriveInstance st userOptions.credentials
    let req : GetRequest :=
      { fileId := fileId, altMedia := true, fields := none, responseTypeStream := true }
    match remote with
    | .resolve stream =>
      { handleUsed := some userDrive, request := some req, result := .ok stream,
        finalState := st }
    | .reject e =>
      let message := rejectionMessage ("Unknown download error") e
      { handleUsed := some userDrive
        request := some req
        result :=
          if e.isObject && e.hasCode then
            if e.code = 404 then
              .error (mkFileDownloadError ("File not found in user drive") (some fileId)
                (rejectionCause e))
            else if e.code = 403 then
              .error (mkAuthenticationError ("Access denied to user drive") (rejectionCause e))
            else
              .error (mkFileDownloadError message (some fileId) (rejectionCause e))
          else
            .error (mkFileDownloadError message (some fileId) (rejectionCause e))
        finalState := st }

/-- `getFileMetadataFromUserDrive` (google-drive.service.ts:416-444):
`getFileMetadata` against a fresh per-user handle. -/
def getFileMetadataFromUserDrive (st : ServiceState) (fileId : String)
    (userOptions : UserDriveOptions) (remote : RemoteResult FileMetadata) :
    UserOpTrace GetRequest FileMetadata :=
  if fileId == "" || (jsTrim fileId.toList).isEmpty then
    { handleUsed := none
      request := none
      result := .error (mkFileDownloadError ("File ID is required") (some fileId) none)
      finalState := st }
  else
    let userDrive := createUserDriveInstance st userOptions.credentials
    let req : GetRequest :=
      { fileId := fileId, altMedia := false, fields := some DEFAULT_FILE_FIELDS,
        responseTypeStream := false }
    match remote with
    | .resolve d =>
      { handleUsed := some userDrive, request := some req, result := .ok d,
        finalState := st }
    | .reject e =>
      { handleUsed := some userDrive
        request := some req
        result := .error (mkFileDownloadError (rejectionMessage ("Unknown error") e)
          (some fileId) (rejectionCause e))
        finalState := st }

/-- `testUserDriveConnection` (google-drive.service.ts:451-463): the `who
am I` call against a fresh per-user handle; all failure becomes `false`. -/
def testUserDriveConnection (st : ServiceState) (userOptions : UserDriveOptions)
    (remote : RemoteResult Unit) : UserOpTrace AboutRequest Bool :=
  let userDrive := createUserDriveInstance st userOptions.credentials
  { handleUsed := some userDrive
    request := some { fields := "user" }
    result := match remote with
      | .resolve _ => .ok true
      | .reject _ => .ok false
    finalState := st }

/-- Claim C8: `testConnection` returns `true` when the identity call
resolves and `false` when it rejects, for any rejection reason, and it
never throws: every outcome is a normal boolean return. -/
theorem testConnection_boolean_semantics :
    (∀ u : Unit, (testConnection (.resolve u)).result = .ok true) ∧
    (∀ e : JsRejection, (testConnection (.reject e)).result = .ok false) ∧
    (∀ r : RemoteResult Unit, ∃ b : Bool, (testConnection r).result = .ok b) :=
  ⟨fun _ => rfl, fun _ => rfl, fun r =>
    match r with
    | .resolve _ => ⟨true, rfl⟩
    | .reject _ => ⟨false, rfl⟩⟩

/-- Witness for C8: both outcomes at concrete arguments, through the
theorem. -/
theorem testConnection_boolean_semantics_witness :
    (testConnection (.resolve ())).result = .ok true ∧
      (testConnection (.reject ⟨false, false, 0, true, "down"⟩)).result = .ok false :=
  ⟨testConnection_boolean_semantics.1 (),
   testConnection_boolean_semantics.2.1 ⟨false, false, 0, true, "down"⟩⟩

/-- Claim C9: every per-user operation leaves the service state (module
options and long-lived handle) exactly as it was, and any handle it uses
for its remote call is the fresh one built by `createUserDriveInstance`
from the caller-supplied credentials. -/
theorem userDrive_ops_fresh_handle_state_invariant :
    (∀ (st : ServiceState) (c : FileContent) (o : UploadFileOptions)
        (u : UserDriveOptions) (r : RemoteResult FileMetadata),
      (uploadFileToUserDrive st c o u r).finalState = st ∧
        ((uploadFileToUserDrive st c o u r).handleUsed = none ∨
          (uploadFileToUserDrive st c o u r).handleUsed =
            some (createUserDriveInstance st u.credentials))) ∧
    (∀ (σ : Type) (st : ServiceState) (fileId : String)
        (u : UserDriveOptions) (r : RemoteResult σ),
      (downloadFileFromUserDrive st fileId u r).finalState = st ∧
        ((downloadFileFromUserDrive st fileId u r).handleUsed = none ∨
          (downloadFileFromUserDrive st fileId u r).handleUsed =
            some (createUserDriveInstance st u.credentials))) ∧
    (∀ (st : ServiceState) (fileId : String) (u : UserDriveOptions)
        (r : RemoteResult FileMetadata),
      (getFileMetadataFromUserDrive st fileId u r).finalState = st ∧
        ((getFileMetadataFromUserDrive st fileId u r).handleUsed = none ∨
          (getFileMetadataFromUserDrive st fileId u r).handleUsed =
            some (createUserDriveInstance st u.credentials))) ∧
    (∀ (st : ServiceState) (u : UserDriveOptions) (r : RemoteResult Unit),
      (testUserDriveConnection st u r).finalState = st ∧
        (testUserDriveConnection st u r).handleUsed =
          some (createUserDriveInstance st u.credentials)) := by
  refine ⟨?_, ?_, ?_, ?_⟩
  · intro st c o u r
    unfold uploadFileToUserDrive
    refine ⟨?_, ?_⟩ <;> (rcases r with d | e <;> split <;> simp)
  · intro σ st fileId u r
    unfold downloadFileFromUserDrive
    refine ⟨?_, ?_⟩ <;> (rcases r with d | e <;> split <;> simp)
  · intro st fileId u r
    unfold getFileMetadataFromUserDrive
    refine ⟨?_, ?_⟩ <;> (rcases r with d | e <;> split <;> simp)
  · intro st u r
    unfold testUserDriveConnection
    rcases r with d | e <;> simp

/-- Claim C3: every operation that validates caller input raises its
taxonomy error (upload error for the uploads, download error for the
id-based operations) without issuing the remote request: the trace records
no request (and, for per-user operations, no handle was built and the state
is untouched), and the result does not depend on what the remote would have
answered. -/
theorem validation_precedes_remote_call :
    (∀ (c : FileContent) (o : UploadFileOptions) (r : RemoteResult FileMetadata),
      validateFileName o.name = false →
        uploadFile c o r =
          { request := none
            result := .error (mkFileUploadError ("Invalid file name") (some o.name) none) }) ∧
    (∀ (st : ServiceState) (c : FileContent) (o : UploadFileOptions)
        (u : UserDriveOptions) (r : RemoteResult FileMetadata),
      validateFileName o.name = false →
        uploadFileToUserDrive st c o u r =
          { handleUsed := none
            request := none
            result := .error (mkFileUploadError ("Invalid file name") (some o.name) none)
            finalState := st }) ∧
    (∀ (σ : Type) (fileId : String) (r : RemoteResult σ),
      (jsTrim fileId.toList).isEmpty = true →
        downloadFile fileId r =
          { request := none
            result := .error (mkFileDownloadError ("File ID is required") (some fileId) none) }) ∧
    (∀ (fileId : String) (r : RemoteResult FileMetadata),
      (jsTrim fileId.toList).isEmpty = true →
        getFileMetadata fileId r =
          { request := none
            result := .error (mkFileDownloadError ("File ID is required") (some fileId) none) }) ∧
    (∀ (σ : Type) (st : ServiceState) (fileId : String) (u : UserDriveOptions)
        (r : RemoteResult σ),
      (jsTrim fileId.toList).isEmpty = true →
        downloadFileFromUserDrive st fileId u r =
          { handleUsed := none
            request := none
            result := .error (mkFileDownloadError ("File ID is required") (some fileId) none)
            finalState := st }) ∧
    (∀ (st : ServiceState) (fileId : String) (u : UserDriveOptions)
        (r : RemoteResult FileMetadata),
      (jsTrim fileId.toList).isEmpty = true →
        getFileMetadataFromUserDrive st fileId u r =
          { handleUsed := none
            request := none
            result := .error (mkFileDownloadError ("File ID is required") (some fileId) none)
            finalState := st }) := by
  refine ⟨?_, ?_, ?_, ?_, ?_, ?_⟩
  · intro c o r h
    unfold uploadFile
    simp [h]
  · intro st c o u r h
    unfold uploadFileToUserDrive
    simp [h]
  · intro σ fileId r h
    have heq : jsTrim fileId.data = [] := by simpa using h
    unfold downloadFile
    simp [heq]
  · intro fileId r h
    have heq : jsTrim fileId.data = [] := by simpa using h
    unfold getFileMetadata
    simp [heq]
  · intro σ st fileId u r h
    have heq : jsTrim fileId.data = [] := by simpa using h
    unfold downloadFileFromUserDrive
    simp [heq]
  · intro st fileId u r h
    have heq : jsTrim fileId.data = [] := by simpa using h
    unfold getFileMetadataFromUserDrive
    simp [heq]

/-- Witness for C3: the invalid name `"bad<name"` and the whitespace-only
id `"   "` at concrete arguments. -/
theorem validation_precedes_remote_call_witness :
    validateFileName "bad<name" = false ∧
      uploadFile (.buffer [1]) ⟨"bad<name", none, none⟩ (.resolve
          ⟨"i", "n", "m", "1", none, "c", "t"⟩) =
        { request := none
          result := .error (mkFileUploadError ("Invalid file name") (some "bad<name") none) } ∧
      (jsTrim "   ".toList).isEmpty = true ∧
      downloadFile (σ := Unit) "   " (.reject ⟨true, true, 404, true, "x"⟩) =
        { request := none
          result := .error (mkFileDownloadError ("File ID is required") (some "   ") none) } :=
  ⟨by decide,
   validation_precedes_remote_call.1 (.buffer [1]) ⟨"bad<name", none, none⟩
     (.resolve ⟨"i", "n", "m", "1", none, "c", "t"⟩) (by decide),
   by decide,
   validation_precedes_remote_call.2.2.1 Unit "   "
     (.reject ⟨true, true, 404, true, "x"⟩) (by decide)⟩

/-- Claim C4: when no MIME type is supplied, `uploadFile` passes the type
inferred from the name's extension to the remote create call; for a buffer
named `"report.pdf"` that type is `"application/pdf"`, and a successful
remote response with id `"X"` yields a result whose `downloadUrl` is
`"https://drive.google.com/file/d/X/view"`. -/
theorem uploadFile_mime_inference_and_url :
    (∀ (c : FileContent) (o : UploadFileOptions) (r : RemoteResult FileMetadata),
      o.mimeType = none → validateFileName o.name = true →
        (uploadFile c o r).request.map (fun q => q.mimeType) =
          some (getMimeTypeFromExtension o.name)) ∧
    (∀ (c : FileContent) (p : Option (List String)) (d : FileMetadata),
      d.id = "X" →
        (uploadFile c ⟨"report.pdf", p, none⟩ (.resolve d)).request.map
            (fun q => q.mimeType) = some "application/pdf" ∧
          (uploadFile c ⟨"report.pdf", p, none⟩ (.resolve d)).result =
            .ok (mkUploadResult d) ∧
          (mkUploadResult d).downloadUrl = "https://drive.google.com/file/d/X/view") := by
  constructor
  · intro c o r hmime hval
    unfold uploadFile
    rcases r with d | e <;> simp [hval, hmime]
  · intro c p d hid
    have hval : validateFileName "report.pdf" = true := by decide
    refine ⟨?_, ?_, ?_⟩
    · unfold uploadFile
      simp only [hval]
      norm_num
      decide
    · unfold uploadFile
      simp only [hval]
      norm_num
    · unfold mkUploadResult
      rw [hid]
      rfl

/-- Witness for C4: a concrete upload of a buffer named `"report.pdf"`
with no MIME type, whose remote response has id `"X"`. -/
theorem uploadFile_mime_inference_and_url_witness :
    (uploadFile (.buffer [7]) ⟨"report.pdf", none, none⟩
        (.resolve ⟨"X", "report.pdf", "application/pdf", "9", none, "c", "t"⟩)).request.map
      (fun q => q.mimeType) = some "application/pdf" ∧
    (uploadFile (.buffer [7]) ⟨"report.pdf", none, none⟩
        (.resolve ⟨"X", "report.pdf", "application/pdf", "9", none, "c", "t"⟩)).result =
      .ok (mkUploadResult ⟨"X", "report.pdf", "application/pdf", "9", none, "c", "t"⟩) ∧
    (mkUploadResult ⟨"X", "report.pdf", "application/pdf", "9", none, "c", "t"⟩).downloadUrl =
      "https://drive.google.com/file/d/X/view" :=
  uploadFile_mime_inference_and_url.2 (.buffer [7]) none
    ⟨"X", "report.pdf", "application/pdf", "9", none, "c", "t"⟩ rfl

/-- Claim C10: an explicitly empty MIME type string is falsy, so both
`uploadFile` and `uploadFileToUserDrive` send the type inferred from the
name's extension to the remote create call, exactly as when no MIME type is
supplied; the empty string itself is never passed through. -/
theorem uploadFile_empty_mimeType_inferred :
    (∀ (c : FileContent) (o : UploadFileOptions) (r : RemoteResult FileMetadata),
      o.mimeType = some "" → validateFileName o.name = true →
        (uploadFile c o r).request.map (fun q => q.mimeType) =
          some (getMimeTypeFromExtension o.name)) ∧
    (∀ (st : ServiceState) (c : FileContent) (o : UploadFileOptions)
        (u : UserDriveOptions) (r : RemoteResult FileMetadata),
      o.mimeType = some "" → validateFileName o.name = true →
        (uploadFileToUserDrive st c o u r).request.map (fun q => q.mimeType) =
          some (getMimeTypeFromExtension o.name)) := by
  constructor
  · intro c o r hmime hval
    unfold uploadFile
    rcases r with d | e <;> simp [hval, hmime]
  · intro st c o u r hmime hval
    unfold uploadFileToUserDrive
    rcases r with d | e <;> simp [hval, hmime]

/-- Witness for C10: uploading `"data.csv"` with `mimeType: ""` sends the
inferred `"text/csv"`, on both the module-wide and the per-user path. -/
theorem uploadFile_empty_mimeType_inferred_witness :
    (uploadFile (.buffer [1]) ⟨"data.csv", none, some ""⟩
        (.resolve ⟨"i", "n", "m", "1", none, "c", "t"⟩)).request.map
      (fun q => q.mimeType) = some (getMimeTypeFromExtension "data.csv") ∧
    (uploadFileToUserDrive
        ⟨⟨"cid", "sec", "uri", none, none⟩,
         initializeDrive ⟨"cid", "sec", "uri", none, none⟩⟩
        (.buffer [1]) ⟨"data.csv", none, some ""⟩ ⟨⟨"at", none, none⟩⟩
        (.resolve ⟨"i", "n", "m", "1", none, "c", "t"⟩)).request.map
      (fun q => q.mimeType) = some (getMimeTypeFromExtension "data.csv") :=
  ⟨uploadFile_empty_mimeType_inferred.1 (.buffer [1]) ⟨"data.csv", none, some ""⟩
     (.resolve ⟨"i", "n", "m", "1", none, "c", "t"⟩) rfl (by decide),
   uploadFile_empty_mimeType_inferred.2
     ⟨⟨"cid", "sec", "uri", none, none⟩,
      initializeDrive ⟨"cid", "sec", "uri", none, none⟩⟩
     (.buffer [1]) ⟨"data.csv", none, some ""⟩ ⟨⟨"at", none, none⟩⟩
     (.resolve ⟨"i", "n", "m", "1", none, "c", "t"⟩) rfl (by decide)⟩

/-- Counterexample to C1 as stated: the repository's own test rejects the
get call with the plain object `{ code: 404, message: ... }`, which is not
an `instanceof Error`; the wrap is the claimed download error, but its
`cause` is empty — the original rejection is not attached, contradicting
"in all cases the original error is attached as the wrapping error's
cause". -/
theorem downloadFile_nonError_cause_dropped :
    (downloadFile (σ := Unit) "abc"
        (.reject ⟨true, true, 404, false, "gone"⟩)).result =
      .error (mkFileDownloadError ("File not found") (some "abc") none) ∧
    (mkFileDownloadError ("File not found") (some "abc") none).cause = none := by
  constructor
  · decide
  · rfl

/-- Claim C1 (amended): for a valid (non-empty, non-whitespace) id whose
remote get rejects, a rejection carrying code 404 becomes a download error,
one carrying 403 becomes an authentication error, and any other rejection a
generic download error, with the file id attached where applicable; the
original rejection reason is attached as the wrapper's cause exactly when
it is an `instanceof Error` (a non-Error reason is dropped). -/
theorem downloadFile_remote_failure_classification {σ : Type} (fileId : String)
    (h : (jsTrim fileId.toList).isEmpty = false) (e : JsRejection) :
    (downloadFile (σ := σ) fileId (.reject e)).request =
        some ⟨fileId, true, none, true⟩ ∧
    (e.isObject = true → e.hasCode = true → e.code = 404 →
      (downloadFile (σ := σ) fileId (.reject e)).result =
        .error (mkFileDownloadError ("File not found") (some fileId) (rejectionCause e))) ∧
    (e.isObject = true → e.hasCode = true → e.code = 403 →
      (downloadFile (σ := σ) fileId (.reject e)).result =
        .error (mkAuthenticationError ("Access denied") (rejectionCause e))) ∧
    (((e.isObject && e.hasCode) = false ∨ (e.code ≠ 404 ∧ e.code ≠ 403)) →
      (downloadFile (σ := σ) fileId (.reject e)).result =
        .error (mkFileDownloadError (rejectionMessage ("Unknown download error") e)
          (some fileId) (rejectionCause e))) ∧
    (e.isErrorInstance = true → rejectionCause e = some e) ∧
    (e.isErrorInstance = false → rejectionCause e = none) := by
  have h' : jsTrim fileId.data ≠ [] := by simpa using h
  have hne : fileId ≠ "" := by
    intro h0
    subst h0
    exact absurd h (by decide)
  refine ⟨?_, ?_, ?_, ?_, ?_, ?_⟩
  · simp [downloadFile, hne, h']
  · intro ho hc h404
    simp [downloadFile, hne, h', ho, hc, h404]
  · intro ho hc h403
    simp [downloadFile, hne, h', ho, hc, h403]
  · intro hd
    by_cases hobj : e.isObject = true
    · by_cases hcode : e.hasCode = true
      · rcases hd with hb | ⟨h1, h2⟩
        · rw [hobj, hcode] at hb
          exact absurd hb (by decide)
        · simp [downloadFile, hne, h', hobj, hcode, h1, h2]
      · simp [downloadFile, hne, h', hobj, hcode]
    · simp [downloadFile, hne, h', hobj]
  · intro hi
    simp [rejectionCause, hi]
  · intro hi
    simp [rejectionCause, hi]

/-- Witness for C1's amended theorem: the id `"abc"` is valid, a 403
Error-instance rejection surfaces as an authentication error, and its
cause is the original error. -/
theorem downloadFile_remote_failure_classification_witness :
    (jsTrim "abc".toList).isEmpty = false ∧
    (downloadFile (σ := Unit) "abc"
        (.reject ⟨true, true, 403, true, "denied"⟩)).result =
      .error (mkAuthenticationError ("Access denied")
        (rejectionCause ⟨true, true, 403, true, "denied"⟩)) :=
  ⟨by decide,
   (downloadFile_remote_failure_classification (σ := Unit) "abc" (by decide)
      ⟨true, true, 403, true, "denied"⟩).2.2.1 rfl rfl rfl⟩

/-- Counterexample to C2 as stated: a plain (non-`Error`) rejection object
with code 403 is wrapped in a download error whose `cause` is empty, so
"carrying ... the original error as cause" fails; the wrap is nevertheless
a download error, not an authentication error. -/
theorem getFileMetadata_nonError_cause_dropped :
    (getFileMetadata "xyz" (.reject ⟨true, true, 403, false, "denied"⟩)).result =
      .error (mkFileDownloadError ("Unknown error") (some "xyz") none) ∧
    (mkFileDownloadError ("Unknown error") (some "xyz") none).cause = none ∧
    (mkFileDownloadError ("Unknown error") (some "xyz") none).name ≠
      "AuthenticationError" := by
  refine ⟨?_, rfl, ?_⟩
  · decide
  · decide

/-- Claim C2 (amended): for a valid id, every remote rejection of
`getFileMetadata` — whatever its code, 403 and 404 included — is wrapped in
a `FileDownloadError` carrying the file id, never an authentication error;
the original reason is attached as cause exactly when it is an
`instanceof Error`. -/
theorem getFileMetadata_failure_uniform_wrap (fileId : String)
    (h : (jsTrim fileId.toList).isEmpty = false) (e : JsRejection) :
    (getFileMetadata fileId (.reject e)).request =
        some ⟨fileId, false, some DEFAULT_FILE_FIELDS, false⟩ ∧
    (getFileMetadata fileId (.reject e)).result =
      .error (mkFileDownloadError (rejectionMessage ("Unknown error") e)
        (some fileId) (rejectionCause e)) ∧
    (∀ err, (getFileMetadata fileId (.reject e)).result = .error err →
      err.name = "FileDownloadError") ∧
    (e.isErrorInstance = true → rejectionCause e = some e) ∧
    (e.isErrorInstance = false → rejectionCause e = none) := by
  have h' : jsTrim fileId.data ≠ [] := by simpa using h
  have hne : fileId ≠ "" := by
    intro h0
    subst h0
    exact absurd h (by decide)
  have hres : (getFileMetadata fileId (.reject e)).result =
      .error (mkFileDownloadError (rejectionMessage ("Unknown error") e)
        (some fileId) (rejectionCause e)) := by
    simp [getFileMetadata, hne, h']
  refine ⟨?_, hres, ?_, ?_, ?_⟩
  · simp [getFileMetadata, hne, h']
  · intro err herr
    rw [hres] at herr
    injection herr with herr
    rw [← herr]
    rfl
  · intro hi
    simp [rejectionCause, hi]
  · intro hi
    simp [rejectionCause, hi]

/-- Witness for C2's amended theorem: the id `"doc1"` is valid and a 403
Error-instance rejection is wrapped in a download error with the original
error as cause. -/
theorem getFileMetadata_failure_uniform_wrap_witness :
    (jsTrim "doc1".toList).isEmpty = false ∧
    (getFileMetadata "doc1" (.reject ⟨true, true, 403, true, "no perm"⟩)).result =
      .error (mkFileDownloadError (rejectionMessage ("Unknown error")
          ⟨true, true, 403, true, "no perm"⟩)
        (some "doc1") (rejectionCause ⟨true, true, 403, true, "no perm"⟩)) :=
  ⟨by decide,
   (getFileMetadata_failure_uniform_wrap "doc1" (by decide)
      ⟨true, true, 403, true, "no perm"⟩).2.1⟩
